import Mathlib

/-!
Verification of the quota accounting & enforcement engine of
`pli-slurm-tool` (`src/plislurmtool/pli_cp/checker.py`).

Shallow embedding conventions:
* Timestamps are epoch seconds, modelled as `ℤ`; durations in minutes or
  hours are `ℤ` as well.
* GPU-hours, quotas and remaining-quota values (Python floats) are
  modelled as `ℚ`, so the division by 3600 is exact.
* Records parsed from the `sacct` JSON response are `Record`; raw JSON
  job entries (where any required key may be absent) are `RawJob` with
  `Option` fields, and a missing key surfaces as an `Except.error`,
  mirroring the `KeyError` a Python dict lookup raises.
* `state` holds the first element of the JSON `state.current` list,
  which is what `checker.py` reads (`job["state"]["current"][0]`).
-/

/-- A parsed job record, the dict built by `ResourceChecker.parse` for one
job of the `sacct` output: keys `n_gpus`, `elapsed`, `start_time`,
`submission_time`, `job_name`, `job_id`, `limit`, plus the fields copied
verbatim (`qos`, `account`, `partition`, `user`, `allocation_nodes`,
`state`). -/
structure Record where
  n_gpus : ℤ
  elapsed : ℤ
  start_time : ℤ
  submission_time : ℤ
  job_name : String
  job_id : ℤ
  limit : ℤ
  qos : String
  account : String
  partition : String
  user : String
  allocation_nodes : ℤ
  state : String
deriving DecidableEq

/-- One entry of `job["tres"]["allocated"]` in the raw `sacct` JSON. -/
structure TresAllocation where
  type : String
  name : String
  count : ℤ
deriving DecidableEq

/-- The `job["time"]` block of a raw `sacct` job entry; each field may be
absent (`none`), in which case the Python dict access raises. -/
structure RawTime where
  elapsed : Option ℤ
  start : Option ℤ
  submission : Option ℤ
  limit_number : Option ℤ
deriving DecidableEq

/-- A raw job entry of the `sacct` JSON response, before
`ResourceChecker.parse` runs.  Required keys are `Option`s: `none` models
a missing key. -/
structure RawJob where
  tres_allocated : List TresAllocation
  time : Option RawTime
  name : Option String
  job_id : Option ℤ
  qos : Option String
  account : Option String
  partition : Option String
  user : Option String
  allocation_nodes : Option ℤ
  state : Option String
deriving DecidableEq

/-- Embeds `ResourceChecker.get_gpu_hrs`: sums `elapsed * n_gpus` over the
records whose `start_time` lies between the two bounds (both comparisons
non-strict in the source) and divides the total by 3600. -/
def get_gpu_hrs (usage : List Record) (start_timestamp end_timestamp : ℤ) : ℚ :=
  (((usage.filter fun job =>
        decide (job.start_time ≥ start_timestamp) && decide (job.start_time ≤ end_timestamp)).map
      fun job => ((job.elapsed * job.n_gpus : ℤ) : ℚ)).sum) / 3600

/-- The spec's formula for the usage aggregator, written from the spec's
words for the refinement claims: the sum of `elapsed_seconds/3600 ×
gpu_count` over exactly those records whose `start_time` lies in the
closed interval `[start, end]`. -/
def gpuHours_spec (records : List Record) (s e : ℤ) : ℚ :=
  ((records.filter fun j => decide (s ≤ j.start_time ∧ j.start_time ≤ e)).map
    fun j => (j.elapsed : ℚ) / 3600 * (j.n_gpus : ℚ)).sum

/-- Embeds `ResourceChecker.get_n_gpus`: sums the `count` of every
`tres.allocated` entry with `type = "gres"` and `name = "gpu"`. -/
def get_n_gpus (job_data : RawJob) : ℤ :=
  ((job_data.tres_allocated.filter fun allocation =>
      decide (allocation.type = "gres") && decide (allocation.name = "gpu")).map
    fun allocation => allocation.count).sum

/-- Models a Python dict lookup of a required key: a present key yields its
value, a missing key raises (here: `Except.error` naming the key), which is
the `MalformedRecord` failure of the spec. -/
def require {α : Type} (field : Option α) (key : String) : Except String α :=
  match field with
  | some v => Except.ok v
  | none => Except.error key

/-- Builds the record dict for one job of the `sacct` output, as the loop
body of `ResourceChecker.parse` does; any missing required field raises. -/
def parseJob (job : RawJob) : Except String Record := do
  let t ← require job.time "time"
  let el ← require t.elapsed "elapsed"
  let st ← require t.start "start"
  let sub ← require t.submission "submission"
  let nm ← require job.name "name"
  let jid ← require job.job_id "job_id"
  let lim ← require t.limit_number "limit"
  let q ← require job.qos "qos"
  let acc ← require job.account "account"
  let part ← require job.partition "partition"
  let u ← require job.user "user"
  let an ← require job.allocation_nodes "allocation_nodes"
  let stt ← require job.state "state"
  Except.ok
    { n_gpus := get_n_gpus job, elapsed := el, start_time := st, submission_time := sub,
      job_name := nm, job_id := jid, limit := lim, qos := q, account := acc,
      partition := part, user := u, allocation_nodes := an, state := stt }

/-- Stable insertion into a list sorted ascending by `start_time`. -/
def insertByStart (r : Record) : List Record → List Record
  | [] => [r]
  | x :: xs => if r.start_time ≤ x.start_time then r :: x :: xs else x :: insertByStart r xs

/-- Embeds `records.sort(key=lambda x: x["start_time"])`: a stable sort
ascending by `start_time`. -/
def sortByStart : List Record → List Record
  | [] => []
  | x :: xs => insertByStart x (sortByStart xs)

/-- The record-building loop of `ResourceChecker.parse`: each job entry is
turned into a record; a record is retained only when its `start_time` is at
least `start_time_int` (the resolved window start); the first malformed
entry raises, aborting the loop (no try/except in the source). -/
def parseLoop (start_time_int : ℤ) : List RawJob → Except String (List Record)
  | [] => Except.ok []
  | job :: rest =>
    match parseJob job with
    | Except.error e => Except.error e
    | Except.ok record =>
      match parseLoop start_time_int rest with
      | Except.error e => Except.error e
      | Except.ok records =>
        Except.ok (if record.start_time ≥ start_time_int then record :: records else records)

/-- Embeds `ResourceChecker.parse`: build the records (aborting on the
first malformed entry), then sort ascending by `start_time`. -/
def parse (start_time_int : ℤ) (data_jobs : List RawJob) : Except String (List Record) :=
  Except.map sortByStart (parseLoop start_time_int data_jobs)

/-- Embeds the `ResourceChecker.active_jobs` property: the loop keeping the
jobs whose `state` (first element of `state.current`) is RUNNING or
PENDING. -/
def active_jobs : List Record → List Record
  | [] => []
  | job :: rest =>
    if job.state = "RUNNING" ∨ job.state = "PENDING" then job :: active_jobs rest
    else active_jobs rest

/-- Embeds the `active_users` set built at the top of
`ResourceCheckerAdmin.usage_monitor`: the users of the active jobs, without
duplicates. -/
def active_users (usage : List Record) : List String :=
  ((active_jobs usage).map fun job => job.user).eraseDups

/-- Runs `parse` and then collects the active users, the discovery pipeline
of `ResourceCheckerAdmin.usage_monitor` over one raw accounting response. -/
def active_users_from_raw (raws : List RawJob) (start_time_int : ℤ) : Except String (List String) :=
  Except.map active_users (parse start_time_int raws)

/-- The derived enforcement classification of a subject. -/
inductive EnforcementState where
  | OK : EnforcementState
  | WARN : EnforcementState
  | CANCEL : EnforcementState
deriving DecidableEq

/-- The observable outcome of one per-user iteration of
`ResourceCheckerAdmin.usage_monitor`: the derived state, the job ids passed
to `cancel_job`, and which email (if any) was sent. -/
structure UserMonitorResult where
  state : EnforcementState
  cancelled : List ℤ
  warn_email : Bool
  cancel_email : Bool
deriving DecidableEq

/-- Embeds `ResourceChecker.usage_report(verbose=False)`: the remaining
quota `quota - get_gpu_hrs(start, end)`. -/
def usage_report_remaining (usage : List Record) (quota : ℚ) (startT endT : ℤ) : ℚ :=
  quota - get_gpu_hrs usage startT endT

/-- Embeds `ResourceChecker.get_quota_yesterday`: the remaining quota with
the end bound pulled back one day (86400 s), the start bound unchanged. -/
def get_quota_yesterday (usage : List Record) (quota : ℚ) (startT now : ℤ) : ℚ :=
  quota - get_gpu_hrs usage startT (now - 86400)

/-- Embeds the per-user body of `ResourceCheckerAdmin.usage_monitor`:
remaining quota `≥ 0` does nothing (OK); below `0` with yesterday's
remaining quota `≥ 0` sends a warning email (WARN); below `0` with
yesterday's remaining quota `< 0` sends a cancellation email and cancels
every active job of the user's checker (CANCEL). -/
def monitor_user (usage : List Record) (quota : ℚ) (startT now : ℤ) : UserMonitorResult :=
  if usage_report_remaining usage quota startT now < 0 then
    if get_quota_yesterday usage quota startT now ≥ 0 then
      { state := EnforcementState.WARN, cancelled := [], warn_email := true, cancel_email := false }
    else
      { state := EnforcementState.CANCEL,
        cancelled := (active_jobs usage).map fun job => job.job_id,
        warn_email := false, cancel_email := true }
  else
    { state := EnforcementState.OK, cancelled := [], warn_email := false, cancel_email := false }

/-- The window start `ResourceChecker.__init__` computes for a non-zero
rolling window: `now - timedelta(minutes=rolling_window)`, i.e.
`now - 60 * rolling_window` in epoch seconds. -/
def user_window_start (now rolling_window : ℤ) : ℤ := now - rolling_window * 60

/-- One per-user monitor iteration starting from the raw accounting
response, as `usage_monitor` does: build a fresh per-user checker (whose
`parse` filters by the user's rolling-window start) and classify it. -/
def monitor_user_from_raw (raws : List RawJob) (quota : ℚ) (now rolling_window : ℤ) :
    Except String UserMonitorResult :=
  Except.map (fun usage => monitor_user usage quota (user_window_start now rolling_window) now)
    (parse (user_window_start now rolling_window) raws)

/-- The default forward offsets of `ResourceChecker.get_quota_forecast`. -/
def default_forecast_hrs : List ℤ := [12, 24, 72, 168]

/-- Embeds `ResourceChecker.get_quota_forecast` (its numeric content, the
formatting of the report string aside): for each offset `hr_shifted`, the
pair of the offset and `total_quota - get_gpu_hrs(start + 3600*hr_shifted,
end)`. -/
def get_quota_forecast (usage : List Record) (startT endT : ℤ) (total_quota : ℚ)
    (hrs : List ℤ) : List (ℤ × ℚ) :=
  hrs.map fun hr_shifted =>
    (hr_shifted, total_quota - get_gpu_hrs usage (startT + 3600 * hr_shifted) endT)

/-- The window a `ResourceChecker` resolves at construction time. -/
inductive WindowResolution where
  | rolling (startT endT : ℤ) : WindowResolution
  | calendarMonth (endT : ℤ) : WindowResolution
deriving DecidableEq

/-- Embeds the window resolution of `ResourceChecker.__init__`: Python
truthiness — a non-zero `rolling_window` (minutes) yields
`start = now - 60*rolling_window`, `end = now`; `rolling_window = 0` falls
back to the first-of-current-month window (its start left abstract here,
no claim depends on it).  No failure path exists in the source. -/
def resolveWindow (now rolling_window : ℤ) : WindowResolution :=
  if rolling_window ≠ 0 then WindowResolution.rolling (now - rolling_window * 60) now
  else WindowResolution.calendarMonth now

/-- A PENDING raw job that has not started (`start_time` 0), well-formed in
every required field; used for the active-discovery claims. -/
def pendingRawJob : RawJob :=
  { tres_allocated := []
  , time := some { elapsed := some 0, start := some 0, submission := some 50, limit_number := some 60 }
  , name := some "pending-job"
  , job_id := some 7
  , qos := some "pli-cp"
  , account := some "pli"
  , partition := some "pli-c"
  , user := some "alice"
  , allocation_nodes := some 1
  , state := some "PENDING" }

/-- A well-formed finished job entry. -/
def wellFormedRawJob : RawJob :=
  { tres_allocated := [{ type := "gres", name := "gpu", count := 2 }]
  , time := some { elapsed := some 3600, start := some 200, submission := some 100, limit_number := some 120 }
  , name := some "good-job"
  , job_id := some 1
  , qos := some "pli-cp"
  , account := some "pli"
  , partition := some "pli-c"
  , user := some "bob"
  , allocation_nodes := some 1
  , state := some "COMPLETED" }

/-- The record `parseJob` extracts from `wellFormedRawJob`. -/
def wellFormedRecord : Record :=
  { n_gpus := 2, elapsed := 3600, start_time := 200, submission_time := 100,
    job_name := "good-job", job_id := 1, limit := 120, qos := "pli-cp", account := "pli",
    partition := "pli-c", user := "bob", allocation_nodes := 1, state := "COMPLETED" }

/-- A raw job entry whose `time` block is missing: malformed. -/
def malformedRawJob : RawJob :=
  { tres_allocated := []
  , time := none
  , name := some "bad-job"
  , job_id := some 2
  , qos := some "pli-cp"
  , account := some "pli"
  , partition := some "pli-c"
  , user := some "bob"
  , allocation_nodes := some 1
  , state := some "FAILED" }

/-- A RUNNING job of user carol that started long before the rolling
window (epoch 0): active at evaluation time, but filtered out by `parse`. -/
def oldRunningRawJob : RawJob :=
  { tres_allocated := [{ type := "gres", name := "gpu", count := 1 }]
  , time := some { elapsed := some 10, start := some 0, submission := some 0, limit_number := some 60 }
  , name := some "old-running"
  , job_id := some 11
  , qos := some "pli-cp"
  , account := some "pli"
  , partition := some "pli-c"
  , user := some "carol"
  , allocation_nodes := some 1
  , state := some "RUNNING" }

/-- A RUNNING job of user carol inside the rolling window, heavy enough to
put carol far over quota both now and a day ago. -/
def heavyRunningRawJob : RawJob :=
  { tres_allocated := [{ type := "gres", name := "gpu", count := 100 }]
  , time := some { elapsed := some 4000000, start := some 500000, submission := some 500000, limit_number := some 10000 }
  , name := some "heavy-running"
  , job_id := some 12
  , qos := some "pli-cp"
  , account := some "pli"
  , partition := some "pli-c"
  , user := some "carol"
  , allocation_nodes := some 1
  , state := some "RUNNING" }

/-- The record `parseJob` extracts from `heavyRunningRawJob`. -/
def heavyRunningRecord : Record :=
  { n_gpus := 100, elapsed := 4000000, start_time := 500000, submission_time := 500000,
    job_name := "heavy-running", job_id := 12, limit := 10000, qos := "pli-cp", account := "pli",
    partition := "pli-c", user := "carol", allocation_nodes := 1, state := "RUNNING" }

/-- A record starting exactly at the window end, with one GPU and one hour
elapsed; used for the forecast boundary claim. -/
def boundaryRecord : Record :=
  { n_gpus := 1, elapsed := 3600, start_time := 3600, submission_time := 0,
    job_name := "boundary", job_id := 21, limit := 60, qos := "pli-cp", account := "pli",
    partition := "pli-c", user := "dave", allocation_nodes := 1, state := "COMPLETED" }

lemma get_gpu_hrs_nil (s e : ℤ) : get_gpu_hrs [] s e = 0 := by
  simp [get_gpu_hrs]

lemma get_gpu_hrs_cons (j : Record) (l : List Record) (s e : ℤ) :
    get_gpu_hrs (j :: l) s e =
      (if s ≤ j.start_time ∧ j.start_time ≤ e then ((j.elapsed * j.n_gpus : ℤ) : ℚ) / 3600 else 0) +
        get_gpu_hrs l s e := by
  by_cases h1 : s ≤ j.start_time
  · by_cases h2 : j.start_time ≤ e
    · simp [get_gpu_hrs, List.filter_cons, ge_iff_le, h1, h2, add_div]
    · simp [get_gpu_hrs, List.filter_cons, ge_iff_le, h1, h2]
  · simp [get_gpu_hrs, List.filter_cons, ge_iff_le, h1]

lemma gpuHours_spec_nil (s e : ℤ) : gpuHours_spec [] s e = 0 := by
  simp [gpuHours_spec]

lemma gpuHours_spec_cons (j : Record) (l : List Record) (s e : ℤ) :
    gpuHours_spec (j :: l) s e =
      (if s ≤ j.start_time ∧ j.start_time ≤ e then (j.elapsed : ℚ) / 3600 * (j.n_gpus : ℚ) else 0) +
        gpuHours_spec l s e := by
  by_cases h : s ≤ j.start_time ∧ j.start_time ≤ e
  · simp [gpuHours_spec, List.filter_cons, h]
  · simp [gpuHours_spec, List.filter_cons, h]

lemma gpu_hrs_eq_spec (records : List Record) (s e : ℤ) :
    get_gpu_hrs records s e = gpuHours_spec records s e := by
  induction records with
  | nil => rw [get_gpu_hrs_nil, gpuHours_spec_nil]
  | cons j l ih =>
    rw [get_gpu_hrs_cons, gpuHours_spec_cons, ih]
    congr 1
    by_cases h : s ≤ j.start_time ∧ j.start_time ≤ e
    · simp only [if_pos h]
      push_cast
      ring
    · simp [h]

lemma gpu_hrs_empty_of_lt (l : List Record) (s e : ℤ) (h : e < s) : get_gpu_hrs l s e = 0 := by
  induction l with
  | nil => exact get_gpu_hrs_nil s e
  | cons j rest ih =>
    rw [get_gpu_hrs_cons, ih]
    have hno : ¬(s ≤ j.start_time ∧ j.start_time ≤ e) := by omega
    rw [if_neg hno, zero_add]

lemma gpu_hrs_term_nonneg (j : Record) (hj : 0 ≤ j.elapsed ∧ 0 ≤ j.n_gpus) :
    (0 : ℚ) ≤ ((j.elapsed * j.n_gpus : ℤ) : ℚ) / 3600 := by
  have h : (0 : ℤ) ≤ j.elapsed * j.n_gpus := mul_nonneg hj.1 hj.2
  have h' : (0 : ℚ) ≤ ((j.elapsed * j.n_gpus : ℤ) : ℚ) := by exact_mod_cast h
  exact div_nonneg h' (by norm_num)

lemma gpu_hrs_nonneg (s e : ℤ) :
    ∀ l : List Record, (∀ j ∈ l, 0 ≤ j.elapsed ∧ 0 ≤ j.n_gpus) → 0 ≤ get_gpu_hrs l s e := by
  intro l
  induction l with
  | nil =>
    intro _
    rw [get_gpu_hrs_nil]
  | cons j rest ih =>
    intro hnn
    rw [get_gpu_hrs_cons]
    refine add_nonneg ?_ (ih fun x hx => hnn x (List.mem_cons_of_mem j hx))
    by_cases h : s ≤ j.start_time ∧ j.start_time ≤ e
    · rw [if_pos h]
      exact gpu_hrs_term_nonneg j (hnn j (List.mem_cons_self j rest))
    · rw [if_neg h]

lemma gpu_hrs_anti_mono (s s' e : ℤ) (hs : s ≤ s') :
    ∀ l : List Record, (∀ j ∈ l, 0 ≤ j.elapsed ∧ 0 ≤ j.n_gpus) →
      get_gpu_hrs l s' e ≤ get_gpu_hrs l s e := by
  intro l
  induction l with
  | nil =>
    intro _
    simp [get_gpu_hrs_nil]
  | cons j rest ih =>
    intro hnn
    rw [get_gpu_hrs_cons, get_gpu_hrs_cons]
    refine add_le_add ?_ (ih fun x hx => hnn x (List.mem_cons_of_mem j hx))
    by_cases h' : s' ≤ j.start_time ∧ j.start_time ≤ e
    · have h : s ≤ j.start_time ∧ j.start_time ≤ e := ⟨le_trans hs h'.1, h'.2⟩
      rw [if_pos h', if_pos h]
    · rw [if_neg h']
      by_cases h : s ≤ j.start_time ∧ j.start_time ≤ e
      · rw [if_pos h]
        exact gpu_hrs_term_nonneg j (hnn j (List.mem_cons_self j rest))
      · rw [if_neg h]

lemma gpu_hrs_split (s m e : ℤ) (hsm : s ≤ m) (hme : m < e) :
    ∀ l : List Record, get_gpu_hrs l s e = get_gpu_hrs l s m + get_gpu_hrs l (m + 1) e := by
  intro l
  induction l with
  | nil => simp [get_gpu_hrs_nil]
  | cons j rest ih =>
    rw [get_gpu_hrs_cons, get_gpu_hrs_cons, get_gpu_hrs_cons, ih]
    by_cases h1 : s ≤ j.start_time ∧ j.start_time ≤ m
    · have h2 : s ≤ j.start_time ∧ j.start_time ≤ e := ⟨h1.1, by omega⟩
      have h3 : ¬(m + 1 ≤ j.start_time ∧ j.start_time ≤ e) := by omega
      rw [if_pos h1, if_pos h2, if_neg h3]
      ring
    · by_cases h4 : m + 1 ≤ j.start_time ∧ j.start_time ≤ e
      · have h2 : s ≤ j.start_time ∧ j.start_time ≤ e := ⟨by omega, h4.2⟩
        rw [if_pos h2, if_neg h1, if_pos h4]
        ring
      · have h2 : ¬(s ≤ j.start_time ∧ j.start_time ≤ e) := by omega
        rw [if_neg h2, if_neg h1, if_neg h4]
        ring

lemma active_jobs_eq_filter (l : List Record) :
    active_jobs l = l.filter fun j => decide (j.state = "RUNNING") || decide (j.state = "PENDING") := by
  induction l with
  | nil => rfl
  | cons j rest ih =>
    simp only [active_jobs, List.filter_cons, Bool.or_eq_true, decide_eq_true_eq]
    by_cases h : j.state = "RUNNING" ∨ j.state = "PENDING"
    · rw [if_pos h, if_pos h, ih]
    · rw [if_neg h, if_neg h, ih]

lemma mem_active_jobs (l : List Record) (j : Record) :
    j ∈ active_jobs l ↔ j ∈ l ∧ (j.state = "RUNNING" ∨ j.state = "PENDING") := by
  rw [active_jobs_eq_filter, List.mem_filter]
  simp

lemma mem_insertByStart (r a : Record) (l : List Record) :
    a ∈ insertByStart r l ↔ a = r ∨ a ∈ l := by
  induction l with
  | nil => simp [insertByStart]
  | cons x xs ih =>
    unfold insertByStart
    by_cases h : r.start_time ≤ x.start_time
    · rw [if_pos h]
      simp
    · rw [if_neg h]
      simp only [List.mem_cons, ih]
      tauto

lemma mem_sortByStart (l : List Record) (a : Record) : a ∈ sortByStart l ↔ a ∈ l := by
  induction l with
  | nil => exact Iff.rfl
  | cons x xs ih =>
    unfold sortByStart
    rw [mem_insertByStart]
    simp [ih]

lemma parseLoop_ok_start (w : ℤ) :
    ∀ (raws : List RawJob) (out : List Record),
      parseLoop w raws = Except.ok out → ∀ r ∈ out, w ≤ r.start_time := by
  intro raws
  induction raws with
  | nil =>
    intro out h r hr
    simp only [parseLoop, Except.ok.injEq] at h
    subst h
    simp at hr
  | cons job rest ih =>
    intro out h r hr
    simp only [parseLoop] at h
    split at h
    · exact absurd h (by simp)
    · split at h
      · exact absurd h (by simp)
      · rename_i records hrest
        simp only [Except.ok.injEq] at h
        subst h
        by_cases hge : r.start_time ≥ w
        · exact hge
        · rw [if_neg ?_] at hr
          · exact absurd (ih records hrest r hr) hge
          · intro hcon
            rcases List.mem_cons.mp (by rwa [if_pos hcon] at hr) with rfl | hr'
            · exact hge hcon
            · exact hge (ih records hrest r hr')

lemma parse_ok_start (w : ℤ) (raws : List RawJob) (out : List Record)
    (h : parse w raws = Except.ok out) : ∀ r ∈ out, w ≤ r.start_time := by
  unfold parse at h
  cases hl : parseLoop w raws with
  | error e =>
    rw [hl] at h
    exact absurd h (by simp [Except.map])
  | ok recs =>
    rw [hl] at h
    simp only [Except.map, Except.ok.injEq] at h
    subst h
    intro r hr
    exact parseLoop_ok_start w raws recs hl r ((mem_sortByStart recs r).mp hr)

lemma parseLoop_error_of_malformed (w : ℤ) :
    ∀ (raws : List RawJob) (job : RawJob) (err : String), job ∈ raws →
      parseJob job = Except.error err → ∃ e, parseLoop w raws = Except.error e := by
  intro raws
  induction raws with
  | nil =>
    intro job err hmem
    exact absurd hmem (by simp)
  | cons j rest ih =>
    intro job err hmem hbad
    rcases List.mem_cons.mp hmem with rfl | hmem'
    · exact ⟨err, by simp [parseLoop, hbad]⟩
    · cases hj : parseJob j with
      | error e => exact ⟨e, by simp [parseLoop, hj]⟩
      | ok record =>
        obtain ⟨e, he⟩ := ih job err hmem' hbad
        exact ⟨e, by simp [parseLoop, hj, he]⟩

lemma parse_error_of_malformed (w : ℤ) (raws : List RawJob) (job : RawJob) (err : String)
    (hmem : job ∈ raws) (hbad : parseJob job = Except.error err) :
    ∃ e, parse w raws = Except.error e := by
  obtain ⟨e, he⟩ := parseLoop_error_of_malformed w raws job err hmem hbad
  exact ⟨e, by simp [parse, he, Except.map]⟩

/-- C1. `gpuHours(records, start, end)` equals the sum of
`elapsed_seconds/3600 × gpu_count` over exactly those records whose
`start_time` lies in the closed interval `[start, end]` (both bounds
inclusive); a record whose `start_time` is strictly below `start` or
strictly above `end` is removed by the filter and contributes nothing. -/
theorem gpu_hours_refines_spec (records : List Record) (s e : ℤ) :
    get_gpu_hrs records s e = gpuHours_spec records s e :=
  gpu_hrs_eq_spec records s e

/-- C2. The monitor's derived state matches the decision table of the
spec, with both usage computations against the same window start: OK when
`remaining_now = quota − gpuHours(records, start, now) ≥ 0` (regardless of
yesterday); WARN when `remaining_now < 0` and `remaining_yesterday =
quota − gpuHours(records, start, now − 24h) ≥ 0`; CANCEL when both are
negative. -/
theorem monitor_state_decision_table (usage : List Record) (quota : ℚ) (startT now : ℤ) :
    (monitor_user usage quota startT now).state =
      if 0 ≤ quota - gpuHours_spec usage startT now then EnforcementState.OK
      else if 0 ≤ quota - gpuHours_spec usage startT (now - 86400) then EnforcementState.WARN
      else EnforcementState.CANCEL := by
  unfold monitor_user usage_report_remaining get_quota_yesterday
  rw [gpu_hrs_eq_spec usage startT now, gpu_hrs_eq_spec usage startT (now - 86400)]
  split_ifs with h1 h2 h3 h4 h5 <;> first | rfl | linarith

/-- C4. For every quota `Q`, window start, offset list and offset `h` in
it, the forecaster reports the pair `(h, Q − usage_h)` where `usage_h`
counts (per the spec formula) exactly the records whose `start_time` is at
or after the start boundary slid forward by `h` hours, the end boundary
fixed; and the default offset list is {12, 24, 72, 168} hours. -/
theorem quota_forecast_refines_spec (usage : List Record) (startT endT : ℤ) (total_quota : ℚ)
    (hrs : List ℤ) :
    get_quota_forecast usage startT endT total_quota hrs =
      (hrs.map fun h => (h, total_quota - gpuHours_spec usage (startT + 3600 * h) endT)) ∧
    default_forecast_hrs = [12, 24, 72, 168] := by
  constructor
  · unfold get_quota_forecast
    refine List.map_congr_left fun h _ => ?_
    rw [gpu_hrs_eq_spec]
  · rfl

/-- C6. For every record set with non-negative `elapsed_seconds` and
`gpu_count`, `gpuHours` is non-negative; and splitting a window over
integer timestamps into `[start, m]` and `[m+1, end]` (with
`start ≤ m < end`) makes the two sub-window usages sum to the usage of the
union window. -/
theorem gpu_hours_nonneg_and_additive (records : List Record)
    (hnn : ∀ j ∈ records, 0 ≤ j.elapsed ∧ 0 ≤ j.n_gpus) (s m e : ℤ) :
    0 ≤ get_gpu_hrs records s e ∧
    (s ≤ m → m < e →
      get_gpu_hrs records s e = get_gpu_hrs records s m + get_gpu_hrs records (m + 1) e) := by
  exact ⟨gpu_hrs_nonneg s e records hnn, fun hsm hme => gpu_hrs_split s m e hsm hme records⟩

/-- Witness for C6 at a concrete input: one completed 2-GPU job of one
hour starting at 200, window `[0, 600]` split at 300. -/
theorem gpu_hours_nonneg_and_additive_witness :
    0 ≤ get_gpu_hrs [wellFormedRecord] 0 600 ∧
    ((0 : ℤ) ≤ 300 → (300 : ℤ) < 600 →
      get_gpu_hrs [wellFormedRecord] 0 600 =
        get_gpu_hrs [wellFormedRecord] 0 300 + get_gpu_hrs [wellFormedRecord] (300 + 1) 600) :=
  gpu_hours_nonneg_and_additive [wellFormedRecord] (by decide) 0 300 600

/-- C10. `gpuHours` over an inverted interval (`end < start`) returns 0;
consequently for a subject with a positive quota whose rolling window is
shorter than 24 hours, yesterday's remaining quota is the full quota, and
the monitor can only yield OK or WARN, never CANCEL. -/
theorem short_window_never_cancels (usage : List Record) (s e : ℤ) (quota : ℚ)
    (now rolling_window : ℤ) (hinv : e < s) (hq : 0 < quota)
    (hshort : rolling_window * 60 < 86400) :
    get_gpu_hrs usage s e = 0 ∧
    get_quota_yesterday usage quota (user_window_start now rolling_window) now = quota ∧
    (monitor_user usage quota (user_window_start now rolling_window) now).state ≠
      EnforcementState.CANCEL := by
  have hyest : get_quota_yesterday usage quota (user_window_start now rolling_window) now = quota := by
    unfold get_quota_yesterday user_window_start
    rw [gpu_hrs_empty_of_lt usage _ _ (by omega), sub_zero]
  refine ⟨gpu_hrs_empty_of_lt usage s e hinv, hyest, ?_⟩
  unfold monitor_user
  by_cases h1 : usage_report_remaining usage quota (user_window_start now rolling_window) now < 0
  · rw [if_pos h1, if_pos (by rw [hyest]; exact le_of_lt hq)]
    exact fun hcon => EnforcementState.noConfusion (congrArg id hcon)
  · rw [if_neg h1]
    exact fun hcon => EnforcementState.noConfusion (congrArg id hcon)

/-- Witness for C10 at a concrete input: empty record set, inverted
interval `[5, 3]`, quota 1, a 10-minute rolling window. -/
theorem short_window_never_cancels_witness :
    get_gpu_hrs [] 5 3 = 0 ∧
    get_quota_yesterday [] 1 (user_window_start 1000000 10) 1000000 = 1 ∧
    (monitor_user [] 1 (user_window_start 1000000 10) 1000000).state ≠
      EnforcementState.CANCEL :=
  short_window_never_cancels [] 5 3 1 1000000 10 (by decide) (by norm_num) (by decide)

/-- Counterexample to C3 as stated: a well-formed PENDING job with
`start_time` 0, against a window starting at 100, is dropped by `parse`
(its `start_time` is below the window start), so its user never reaches
the active-subject set — discovery is not window-independent end to end. -/
theorem pending_zero_start_excluded :
    pendingRawJob.state = some "PENDING" ∧
    (pendingRawJob.time.map fun t => t.start) = some (some 0) ∧
    active_users_from_raw [pendingRawJob] 100 = Except.ok [] :=
  ⟨rfl, rfl, rfl⟩

/-- C3 (amended). Among already-parsed records, `active_jobs` selects
exactly those whose state is RUNNING or PENDING, with no regard to their
`start_time`; but `parse` retains only records whose `start_time` is at
least the window start, so a PENDING job with zero `start_time` is
excluded from active-subject discovery whenever the window start is
positive. -/
theorem active_discovery_after_parse (recs : List Record) (j : Record)
    (raws : List RawJob) (w : ℤ) (out : List Record)
    (hout : parse w raws = Except.ok out) :
    (j ∈ active_jobs recs ↔ j ∈ recs ∧ (j.state = "RUNNING" ∨ j.state = "PENDING")) ∧
    (∀ r ∈ out, w ≤ r.start_time) :=
  ⟨mem_active_jobs recs j, parse_ok_start w raws out hout⟩

/-- Witness for C3's amended theorem at a concrete input: one well-formed
job, window start 0. -/
theorem active_discovery_after_parse_witness :
    (wellFormedRecord ∈ active_jobs [wellFormedRecord] ↔
      wellFormedRecord ∈ [wellFormedRecord] ∧
        (wellFormedRecord.state = "RUNNING" ∨ wellFormedRecord.state = "PENDING")) ∧
    (∀ r ∈ [wellFormedRecord], (0 : ℤ) ≤ r.start_time) :=
  active_discovery_after_parse [wellFormedRecord] wellFormedRecord [wellFormedRawJob] 0
    [wellFormedRecord] rfl

/-- Counterexample to C5 as stated: with window `[0, 3600]` (length one
hour) and offset `h = 1` hour — so `h` hours equal the window length — a
record with non-negative fields starting exactly at the window end still
lies in the closed shifted window `[3600, 3600]`, so `usage_h = 1 ≠ 0` and
the forecast is `Q − 1`, not `Q`. -/
theorem forecast_at_exact_window_length_counterexample :
    (0 ≤ boundaryRecord.elapsed ∧ 0 ≤ boundaryRecord.n_gpus) ∧
    (3600 : ℤ) - 0 = 3600 * 1 ∧
    get_quota_forecast [boundaryRecord] 0 3600 10 [1] = [(1, 9)] ∧
    get_gpu_hrs [boundaryRecord] (0 + 3600 * 1) 3600 ≠ 0 := by
  have husage : get_gpu_hrs [boundaryRecord] (0 + 3600 * 1) 3600 = 1 := by
    norm_num [get_gpu_hrs, boundaryRecord, List.filter]
  refine ⟨by decide, by decide, ?_, ?_⟩
  · unfold get_quota_forecast
    rw [List.map_singleton, husage]
    norm_num
  · rw [husage]
    norm_num

/-- C5 (amended). For records with non-negative `elapsed_seconds` and
`gpu_count`, the forecast value reported for an offset is monotone
non-decreasing in the offset (so values are non-increasing as the offset
decreases); and for every offset strictly beyond the window length
(`end − start < 3600·h`), the shifted usage is 0 and the forecast equals
`Q` — at an offset exactly equal to the window length a record starting
exactly at `end` still counts, hence the strict bound. -/
theorem forecast_monotone_and_vanishing (usage : List Record) (Q : ℚ)
    (startT endT h1 h2 h : ℤ)
    (hnn : ∀ j ∈ usage, 0 ≤ j.elapsed ∧ 0 ≤ j.n_gpus) :
    get_quota_forecast usage startT endT Q [h] =
      [(h, Q - get_gpu_hrs usage (startT + 3600 * h) endT)] ∧
    (h1 ≤ h2 →
      Q - get_gpu_hrs usage (startT + 3600 * h1) endT ≤
        Q - get_gpu_hrs usage (startT + 3600 * h2) endT) ∧
    (endT - startT < 3600 * h →
      get_gpu_hrs usage (startT + 3600 * h) endT = 0 ∧
      Q - get_gpu_hrs usage (startT + 3600 * h) endT = Q) := by
  refine ⟨rfl, fun h12 => ?_, fun hbeyond => ?_⟩
  · have hmono := gpu_hrs_anti_mono (startT + 3600 * h1) (startT + 3600 * h2) endT
      (by omega) usage hnn
    linarith
  · have hempty : get_gpu_hrs usage (startT + 3600 * h) endT = 0 :=
      gpu_hrs_empty_of_lt usage _ _ (by omega)
    exact ⟨hempty, by rw [hempty, sub_zero]⟩

/-- Witness for C5's amended theorem at a concrete input: one well-formed
job in window `[0, 10000]`, offsets 1 ≤ 2, and offset 4 strictly beyond
the window length. -/
theorem forecast_monotone_and_vanishing_witness :
    get_quota_forecast [wellFormedRecord] 0 10000 5 [4] =
      [(4, 5 - get_gpu_hrs [wellFormedRecord] (0 + 3600 * 4) 10000)] ∧
    ((1 : ℤ) ≤ 2 →
      5 - get_gpu_hrs [wellFormedRecord] (0 + 3600 * 1) 10000 ≤
        5 - get_gpu_hrs [wellFormedRecord] (0 + 3600 * 2) 10000) ∧
    ((10000 : ℤ) - 0 < 3600 * 4 →
      get_gpu_hrs [wellFormedRecord] (0 + 3600 * 4) 10000 = 0 ∧
      5 - get_gpu_hrs [wellFormedRecord] (0 + 3600 * 4) 10000 = 5) :=
  forecast_monotone_and_vanishing [wellFormedRecord] 5 0 10000 1 2 4 (by decide)

/-- Counterexample to C7 as stated: a response holding one well-formed job
followed by one malformed job (its time block is missing) makes the whole
parse fail; the well-formed sibling record is not returned. -/
theorem malformed_record_aborts_parse :
    parseJob wellFormedRawJob = Except.ok wellFormedRecord ∧
    parse 0 [wellFormedRawJob, malformedRawJob] = Except.error "time" :=
  ⟨rfl, rfl⟩

/-- C7 (amended). A malformed job entry anywhere in the accounting
response (any required field missing) escalates: the whole parse fails
with the error of the Python dict lookup, and no record — malformed or
well-formed — is returned. -/
theorem parse_aborts_on_malformed (raws : List RawJob) (w : ℤ) (job : RawJob) (err : String)
    (hmem : job ∈ raws) (hbad : parseJob job = Except.error err) :
    ∃ e, parse w raws = Except.error e :=
  parse_error_of_malformed w raws job err hmem hbad

/-- Witness for C7's amended theorem at a concrete input: a response with
a single malformed job. -/
theorem parse_aborts_on_malformed_witness :
    ∃ e, parse 5 [malformedRawJob] = Except.error e :=
  parse_aborts_on_malformed [malformedRawJob] 5 malformedRawJob "time"
    (List.mem_singleton.mpr rfl) rfl

/-- Counterexample to C8 as stated: the constructor raises no
`InvalidWindow` for `minutes ≤ 0`.  With `minutes = -5` it resolves to a
rolling window whose start lies in the future of `now`; with
`minutes = 0`, Python truthiness selects the calendar-month fallback. -/
theorem resolveWindow_never_fails_counterexample :
    resolveWindow 1000 (-5) = WindowResolution.rolling 1300 1000 ∧
    resolveWindow 1000 0 = WindowResolution.calendarMonth 1000 ∧
    (1000 : ℤ) < 1300 :=
  ⟨rfl, rfl, by decide⟩

/-- C8 (amended). Window resolution never fails: any non-zero `minutes`
(the rolling_window argument is truthy) resolves to
`start = now − 60·minutes`, `end = now` — for negative `minutes` the start
lies strictly in the future of `now` — while `minutes = 0` is falsy and
falls back to the calendar-month window. -/
theorem resolveWindow_behavior (now m : ℤ) :
    (m ≠ 0 → resolveWindow now m = WindowResolution.rolling (now - m * 60) now) ∧
    (m = 0 → resolveWindow now m = WindowResolution.calendarMonth now) ∧
    (m < 0 → ∃ s, resolveWindow now m = WindowResolution.rolling s now ∧ now < s) := by
  refine ⟨fun h => ?_, fun h => ?_, fun h => ?_⟩
  · unfold resolveWindow
    rw [if_pos h]
  · unfold resolveWindow
    rw [if_neg (not_not_intro h)]
  · have hne : m ≠ 0 := by omega
    refine ⟨now - m * 60, ?_, by linarith⟩
    unfold resolveWindow
    rw [if_pos hne]

/-- Witness for C8's amended theorem at a concrete input: a negative
rolling window of one minute. -/
theorem resolveWindow_behavior_witness :
    ∃ s, resolveWindow 2000 (-1) = WindowResolution.rolling s 2000 ∧ (2000 : ℤ) < s :=
  (resolveWindow_behavior 2000 (-1)).2.2 (by decide)

/-- Counterexample to C9 as stated: user carol holds two RUNNING jobs at
evaluation time — job 11, started before the rolling-window start, and
job 12, inside the window and far over quota.  The monitor classifies
carol CANCEL but cancels only job 12: job 11 was dropped by the per-user
checker's `parse`, so the RUNNING job 11 receives no cancellation. -/
theorem cancel_misses_prewindow_active_job :
    oldRunningRawJob.state = some "RUNNING" ∧
    oldRunningRawJob.job_id = some 11 ∧
    monitor_user_from_raw [oldRunningRawJob, heavyRunningRawJob] 1 3000000 43200 =
      Except.ok { state := EnforcementState.CANCEL, cancelled := [12],
                  warn_email := false, cancel_email := true } ∧
    (11 : ℤ) ∉ ([12] : List ℤ) := by
  refine ⟨rfl, rfl, ?_, by decide⟩
  have hw : user_window_start 3000000 43200 = 408000 := by decide
  have hparse : parse 408000 [oldRunningRawJob, heavyRunningRawJob] =
      Except.ok [heavyRunningRecord] := by rfl
  have h1 : usage_report_remaining [heavyRunningRecord] 1 408000 3000000 < 0 := by
    norm_num [usage_report_remaining, get_gpu_hrs, heavyRunningRecord, List.filter]
  have h2 : ¬ get_quota_yesterday [heavyRunningRecord] 1 408000 3000000 ≥ 0 := by
    norm_num [get_quota_yesterday, get_gpu_hrs, heavyRunningRecord, List.filter]
  unfold monitor_user_from_raw
  rw [hw, hparse]
  simp only [Except.map]
  unfold monitor_user
  rw [if_pos h1, if_neg h2]
  rfl

/-- C9 (amended). When the monitor classifies a subject CANCEL, it sends
the cancellation notice and issues exactly one cancellation per active job
among the records its per-user checker retained (one `cancel_job` call per
RUNNING/PENDING retained record, in order); active jobs whose `start_time`
fell below the user's window start were parsed away and receive none. -/
theorem cancel_exactly_retained_active_jobs (usage : List Record) (quota : ℚ)
    (startT now : ℤ)
    (hc : (monitor_user usage quota startT now).state = EnforcementState.CANCEL) :
    (monitor_user usage quota startT now).cancelled =
      ((usage.filter fun j => decide (j.state = "RUNNING") || decide (j.state = "PENDING")).map
        fun j => j.job_id) ∧
    (monitor_user usage quota startT now).cancel_email = true := by
  unfold monitor_user at hc ⊢
  by_cases h1 : usage_report_remaining usage quota startT now < 0
  · by_cases h2 : get_quota_yesterday usage quota startT now ≥ 0
    · rw [if_pos h1, if_pos h2] at hc
      exact absurd hc (by simp)
    · rw [if_pos h1, if_neg h2]
      exact ⟨by rw [active_jobs_eq_filter], rfl⟩
  · rw [if_neg h1] at hc
    exact absurd hc (by simp)

/-- Witness for C9's amended theorem at a concrete input: the single
retained heavy RUNNING job, quota 1. -/
theorem cancel_exactly_retained_active_jobs_witness :
    (monitor_user [heavyRunningRecord] 1 408000 3000000).cancelled =
      (([heavyRunningRecord].filter fun j =>
          decide (j.state = "RUNNING") || decide (j.state = "PENDING")).map fun j => j.job_id) ∧
    (monitor_user [heavyRunningRecord] 1 408000 3000000).cancel_email = true :=
  cancel_exactly_retained_active_jobs [heavyRunningRecord] 1 408000 3000000 (by
    have h1 : usage_report_remaining [heavyRunningRecord] 1 408000 3000000 < 0 := by
      norm_num [usage_report_remaining, get_gpu_hrs, heavyRunningRecord, List.filter]
    have h2 : ¬ get_quota_yesterday [heavyRunningRecord] 1 408000 3000000 ≥ 0 := by
      norm_num [get_quota_yesterday, get_gpu_hrs, heavyRunningRecord, List.filter]
    unfold monitor_user
    rw [if_pos h1, if_neg h2])
